import Mathlib

/-!
Verification development for the two example notebooks of this repository:
`docs/examples/data_connectors/SlackDemo.ipynb` and
`docs/examples/pipeline/query_pipeline_routing.ipynb`.

The notebooks are straight-line scripts calling into an external
retrieval-augmented-generation framework.  We embed the repository-authored
code shallowly: every external call (the Slack reader, index construction,
query engines, the language-model selector, pipeline execution) is an oracle
passed in as a function parameter, while everything written in the notebooks
themselves (the credential setup, the call arguments, `select_choice`, the
conditional-link lambdas, the pipeline wiring) is translated directly from
the notebook source.  Framework behaviour that a claim needs but whose code
is not part of the two source files is modelled from the specification and
marked `Modelled from the spec:` in its doc comment.
-/

namespace LlamaIndexNotebooks

/-- A Python `dict` with string keys and string values, as an association
list in insertion order (the notebooks only build small literal dicts with
distinct keys). -/
abbrev Dict := List (String × String)

/-- Dictionary lookup: `d[k]` returns the value of the first entry with key
`k`, or `none` (a Python `KeyError`) when the key is absent. -/
def dictGet : Dict → String → Option String
  | [], _ => none
  | (k, v) :: rest, key => if k = key then some v else dictGet rest key

/-- The keys of a dict in insertion order (Python `dict` preserves it). -/
def dictKeys (d : Dict) : List String := d.map Prod.fst

/-- Assignment `os.environ[k] = v`: later assignments shadow earlier ones. -/
def envSet (e : Dict) (k v : String) : Dict := (k, v) :: e

/-- Lookup `os.getenv(k)`: `None` when the variable is unset. -/
def envGet (e : Dict) (k : String) : Option String := dictGet e k

/-- Python `str(i)` on an `int`: the decimal rendering, with a leading minus
sign for negative values. -/
def pyStr (i : Int) : String := toString i

/-- The result of `LLMSingleSelector.select`: a single selection exposing the
chosen index `ind` (a Python `int`) and the model-produced reason. -/
structure SingleSelection where
  ind : Int
  reason : String

/-- The `choices` list of the routing notebook: two string descriptions of
the candidate branches (defined identically in both sections of the
notebook). -/
def choices : List String :=
  ["This tool answers specific questions about the document (not summary questions across the document)",
   "This tool answers summary questions about the document (not specific questions)"]

/-- The notebook function

```python
def select_choice(query: str) -> Dict:
    selector = LLMSingleSelector.from_defaults()
    output = selector.select(choices, query)
    return {"query": query, "index": str(output.ind)}
```

with the external call `selector.select` abstracted as the oracle
parameter `select`. -/
def select_choice (select : List String → String → SingleSelection)
    (query : String) : Dict :=
  [("query", query), ("index", pyStr (select choices query).ind)]

/-- The conditional-link predicate `lambda x: x["index"] == "0"` attached to
the `selector -> vector_retriever` link.  The result is `none` when the
subscript raises `KeyError`. -/
def condition_fn_vector (x : Dict) : Option Bool :=
  (dictGet x "index").map (fun v => v == "0")

/-- The conditional-link predicate `lambda x: x["index"] == "1"` attached to
the `selector -> summary_retriever` link. -/
def condition_fn_summary (x : Dict) : Option Bool :=
  (dictGet x "index").map (fun v => v == "1")

/-- The link input function `lambda x: x["query"]` attached to both
conditional links. -/
def input_fn_query (x : Dict) : Option String :=
  dictGet x "query"

/-- One `qp.add_link(...)` edge of the conditional-link pipeline. -/
structure Link where
  src : String
  dest : String
  condition_fn : Option (Dict → Option Bool)
  input_fn : Option (Dict → Option String)
  dest_key : Option String

/-- `qp.add_link("input", "selector")`. -/
def link_input_selector : Link :=
  ⟨"input", "selector", none, none, none⟩

/-- `qp.add_link("selector", "vector_retriever", condition_fn=..., input_fn=...)`. -/
def link_selector_vector : Link :=
  ⟨"selector", "vector_retriever", some condition_fn_vector, some input_fn_query, none⟩

/-- `qp.add_link("selector", "summary_retriever", condition_fn=..., input_fn=...)`. -/
def link_selector_summary : Link :=
  ⟨"selector", "summary_retriever", some condition_fn_summary, some input_fn_query, none⟩

/-- `qp.add_link("vector_retriever", "summarizer", dest_key="nodes")`. -/
def link_vector_summarizer : Link :=
  ⟨"vector_retriever", "summarizer", none, none, some "nodes"⟩

/-- `qp.add_link("summary_retriever", "summarizer", dest_key="nodes")`. -/
def link_summary_summarizer : Link :=
  ⟨"summary_retriever", "summarizer", none, none, some "nodes"⟩

/-- `qp.add_link("input", "summarizer", dest_key="query_str")`. -/
def link_input_summarizer : Link :=
  ⟨"input", "summarizer", none, none, some "query_str"⟩

/-- All six `add_link` calls of the conditional-link pipeline, in source
order. -/
def qp_links : List Link :=
  [link_input_selector, link_selector_vector, link_selector_summary,
   link_vector_summarizer, link_summary_summarizer, link_input_summarizer]

/-- The module names registered in the `QueryPipeline(modules={...})` call of
the conditional-link section, in source order. -/
def qp_modules : List String :=
  ["input", "selector", "vector_retriever", "summary_retriever", "summarizer"]

/-- Modelled from the spec: the conditional-edge semantics of the external
query-pipeline engine (not part of the two source files).  Conditional edges
"are only picked if certain conditions are met": a link propagates exactly
when its condition function returns `true` on the source output, and a link
without a condition always propagates. -/
def linkFires (l : Link) (srcOutput : Dict) : Bool :=
  match l.condition_fn with
  | none => true
  | some c => c srcOutput == some true

/-- Modelled from the spec: the `vector_retriever` module runs exactly when
its incoming conditional link from the selector fires. -/
def vectorRetrieverRuns (selOutput : Dict) : Bool :=
  linkFires link_selector_vector selOutput

/-- Modelled from the spec: the `summary_retriever` module runs exactly when
its incoming conditional link from the selector fires. -/
def summaryRetrieverRuns (selOutput : Dict) : Bool :=
  linkFires link_selector_summary selOutput

/-- Modelled from the spec: the number of values arriving at the
summarizer's `"nodes"` destination key, one for each retriever that ran
(the only `dest_key="nodes"` links come from the two retrievers). -/
def summarizerNodesInputs (selOutput : Dict) : Nat :=
  (if vectorRetrieverRuns selOutput then 1 else 0)
    + (if summaryRetrieverRuns selOutput then 1 else 0)

/-- A step of a `QueryPipeline(chain=[...])` chain in the RouterComponent
section of the routing notebook: a prompt template, the `llm` module, or a
query engine over a named index with an optional `similarity_top_k`
configuration. -/
inductive PipelineModule where
  | prompt (template : String)
  | llmStep (model : String)
  | engine (indexName : String) (similarityTopK : Option Nat)
  deriving DecidableEq

/-- The `summary_qrewrite_str` prompt template of the routing notebook (the
query-rewrite prompt placed before the `llm` step of the summary chain). -/
def summary_qrewrite_str : String :=
  "Here\x27s a question:\n{query_str}\n\nYou are responsible for feeding the question to an agent that given context will try to answer the question.\nThe context may or may not be relevant. Rewrite the question to highlight the fact that\nonly some pieces of context (or none) maybe be relevant.\n"

/-- `vector_chain = QueryPipeline(chain=[vector_query_engine])`, where
`vector_query_engine = vector_index.as_query_engine(similarity_top_k=2)`. -/
def vector_chain : List PipelineModule :=
  [PipelineModule.engine "vector_index" (some 2)]

/-- `summary_chain = QueryPipeline(chain=[summary_qrewrite_prompt, llm,
summary_query_engine])`, where `llm = OpenAI(model="gpt-3.5-turbo")` and
`summary_query_engine = summary_index.as_query_engine()`. -/
def summary_chain : List PipelineModule :=
  [PipelineModule.prompt summary_qrewrite_str,
   PipelineModule.llmStep "gpt-3.5-turbo",
   PipelineModule.engine "summary_index" none]

/-- The `similarity_top_k` configuration of the first query-engine step of a
chain, if any. -/
def chainTopK : List PipelineModule → Option Nat
  | [] => none
  | PipelineModule.engine _ k :: _ => k
  | _ :: rest => chainTopK rest

/-- Whether a chain contains a prompt-template step (the summary chain's
query-rewrite step). -/
def chainHasPromptStep (c : List PipelineModule) : Bool :=
  c.any (fun m =>
    match m with
    | PipelineModule.prompt _ => true
    | _ => false)

/-- The `RouterComponent(selector=..., choices=..., components=...,
verbose=True)` configuration built in the routing notebook. -/
structure RouterComponentCfg where
  selector : String
  choices : List String
  components : List (List PipelineModule)
  verbose : Bool

/-- `router_c = RouterComponent(selector=selector, choices=choices,
components=[vector_chain, summary_chain], verbose=True)` with
`selector = LLMSingleSelector.from_defaults()`. -/
def router_c : RouterComponentCfg :=
  ⟨"LLMSingleSelector.from_defaults", choices, [vector_chain, summary_chain], true⟩

/-- Modelled from the spec: the execution of the `RouterComponent` (the
component class is not part of the two source files).  Per the notebook's
own description it "chooses the relevant choice and calls the relevant
sub-component": the selector is run over the router's choices and the query,
and exactly the component at the produced index is executed; an index
outside the component list routes nothing. -/
def routerComponentRun {Resp : Type} (select : List String → String → SingleSelection)
    (runChain : List PipelineModule → String → Resp) (q : String) : Option (Nat × Resp) :=
  if (select router_c.choices q).ind < 0 then none
  else
    match router_c.components.get? (select router_c.choices q).ind.toNat with
    | some comp => some ((select router_c.choices q).ind.toNat, runChain comp q)
    | none => none

/-- The external calls the routing notebook makes, abstracted as oracles:
`SimpleDirectoryReader.load_data`, `LLMSingleSelector.select`, the execution
of a pipeline chain, and `str()` on a framework response object. -/
structure RoutingEnv (Doc Resp : Type) where
  read_documents : List String → List Doc
  select : List String → String → SingleSelection
  run_chain : List PipelineModule → String → Resp
  resp_str : Resp → String

/-- The observable outcome of one `response = qp.run(...)` cell followed by
`print(str(response))` in the RouterComponent section: the branch indices
that were executed, the response, and the printed line. -/
structure RouterRunResult (Resp : Type) where
  executedBranches : List Nat
  response : Resp
  printed : String

/-- One try-out cell of the RouterComponent section:
`response = qp.run(q)` on the top-level pipeline
`qp = QueryPipeline(chain=[router_c])`, then `print(str(response))`. -/
def routerTryQuery {Doc Resp : Type} (env : RoutingEnv Doc Resp) (q : String) :
    Option (RouterRunResult Resp) :=
  (routerComponentRun env.select env.run_chain q).map
    (fun p => ⟨[p.1], p.2, env.resp_str p.2⟩)

/-- The cell-level operations of the routing notebook in program order. -/
def routingOps : List String :=
  ["download pg_essay.txt", "SimpleDirectoryReader.load_data",
   "define llm, indices, retrievers, prompts, selector",
   "construct vector_chain, summary_chain, router_c, qp",
   "qp.run query 1", "print response 1",
   "qp.run query 2", "print response 2",
   "define select_choice",
   "construct conditional-link QueryPipeline modules",
   "qp.add_link x6", "visualize dag",
   "qp.run query 3", "print response 3", "len source_nodes 3",
   "qp.run query 4", "print response 4", "len source_nodes 4"]

/-- The routing notebook executed end to end against oracles `env`:
documents loaded from `pg_essay.txt`, the two RouterComponent try-out
queries, and the fixed cell schedule. -/
structure RoutingRun (Doc Resp : Type) where
  documents : List Doc
  run1 : Option (RouterRunResult Resp)
  run2 : Option (RouterRunResult Resp)
  trace : List String

/-- The routing notebook run: `reader =
SimpleDirectoryReader(input_files=["pg_essay.txt"])`, the two try-out
queries of the RouterComponent section, and the cell trace. -/
def routingDemo {Doc Resp : Type} (env : RoutingEnv Doc Resp) : RoutingRun Doc Resp :=
  ⟨env.read_documents ["pg_essay.txt"],
   routerTryQuery env "What did the author do during his time in YC?",
   routerTryQuery env "What is a summary of this document?",
   routingOps⟩

/-- The external calls the Slack notebook makes, abstracted as oracles:
`SlackReader(slack_token=...).load_data(channel_ids=...)`,
`SummaryIndex.from_documents`, `index.as_query_engine()`,
`query_engine.query(...)`, and `str()` on the response object. -/
structure SlackEnv (Doc Idx Eng Resp : Type) where
  load_data : Option String → List String → List Doc
  from_documents : List Doc → Idx
  as_query_engine : Idx → Eng
  query : Eng → String → Resp
  resp_str : Resp → String

/-- The bindings produced by running the Slack notebook's cells in order. -/
structure SlackRun (Doc Idx Eng Resp : Type) where
  environ : Dict
  api_key : String
  slack_token : Option String
  channel_ids : List String
  documents : List Doc
  index : Idx
  query_engine : Eng
  response : Resp
  displayed : List String
  trace : List String

/-- The cell-level operations of the Slack notebook in program order. -/
def slackOps : List String :=
  ["configure credentials", "SlackReader.load_data",
   "SummaryIndex.from_documents", "index.as_query_engine",
   "query_engine.query", "display response"]

/-- The Slack notebook executed cell by cell:

```python
os.environ["SLACK_BOT_TOKEN"] = "xoxb-"
openai.api_key = "sk-"
slack_token = os.getenv("SLACK_BOT_TOKEN")
channel_ids = ["<channel_id>"]
documents = SlackReader(slack_token=slack_token).load_data(channel_ids=channel_ids)
index = SummaryIndex.from_documents(documents)
query_engine = index.as_query_engine()
response = query_engine.query("<query_text>")
display(Markdown(f"<b>\x7bresponse\x7d</b>"))
```
-/
def slackDemo {Doc Idx Eng Resp : Type} (env : SlackEnv Doc Idx Eng Resp) :
    SlackRun Doc Idx Eng Resp :=
  let environ := envSet [] "SLACK_BOT_TOKEN" "xoxb-"
  let api_key := "sk-"
  let slack_token := envGet environ "SLACK_BOT_TOKEN"
  let channel_ids := ["<channel_id>"]
  let documents := env.load_data slack_token channel_ids
  let index := env.from_documents documents
  let query_engine := env.as_query_engine index
  let response := env.query query_engine "<query_text>"
  ⟨environ, api_key, slack_token, channel_ids, documents, index, query_engine,
   response, ["<b>" ++ env.resp_str response ++ "</b>"], slackOps⟩

/-- The Slack notebook with fallible external calls: each oracle returns
`Except`, and — because the notebook authors no `try`/`except` — the first
failure is the result of the whole run, exactly as raised. -/
structure SlackEnvE (Doc Idx Eng Resp : Type) where
  load_data : Option String → List String → Except String (List Doc)
  from_documents : List Doc → Except String Idx
  as_query_engine : Idx → Except String Eng
  query : Eng → String → Except String Resp

/-- The Slack notebook run with fallible oracles.  The nested matches are
the embedding of unhandled Python exception propagation: no alternative
action is taken on any failure. -/
def slackDemoE {Doc Idx Eng Resp : Type} (env : SlackEnvE Doc Idx Eng Resp) :
    Except String Resp :=
  match env.load_data (envGet (envSet [] "SLACK_BOT_TOKEN" "xoxb-") "SLACK_BOT_TOKEN")
      ["<channel_id>"] with
  | Except.error e => Except.error e
  | Except.ok documents =>
    match env.from_documents documents with
    | Except.error e => Except.error e
    | Except.ok index =>
      match env.as_query_engine index with
      | Except.error e => Except.error e
      | Except.ok query_engine => env.query query_engine "<query_text>"

/-- `select_choice` with a fallible `selector.select` oracle: the function
body wraps the external call in no `try`/`except`, so a raised error is the
result of the call. -/
def select_choiceE (selectE : List String → String → Except String SingleSelection)
    (query : String) : Except String Dict :=
  match selectE choices query with
  | Except.error e => Except.error e
  | Except.ok output => Except.ok [("query", query), ("index", pyStr output.ind)]

/-- The routing notebook with fallible external calls: the directory reader,
the two index constructions of the define-modules cell, the selector, and
the execution of a pipeline chain may each raise, and — the notebook
authoring no `try`/`except` — the first failure ends the run. -/
structure RoutingEnvE (Doc VIdx SIdx Resp : Type) where
  read_documents : List String → Except String (List Doc)
  vector_from_documents : List Doc → Except String VIdx
  summary_from_documents : List Doc → Except String SIdx
  select : List String → String → Except String SingleSelection
  run_chain : List PipelineModule → String → Except String Resp

/-- Modelled from the spec: the `RouterComponent` execution with fallible
selector and chain runner (the component class is not part of the two
source files).  A failure of the selector call or of the chosen
sub-component's execution propagates exactly as raised; an index outside
the component list is the framework's own out-of-range failure. -/
def routerComponentRunE {Resp : Type}
    (select : List String → String → Except String SingleSelection)
    (runChain : List PipelineModule → String → Except String Resp) (q : String) :
    Except String (Nat × Resp) :=
  match select router_c.choices q with
  | Except.error e => Except.error e
  | Except.ok out =>
    if out.ind < 0 then Except.error "selector index out of range"
    else
      match router_c.components.get? out.ind.toNat with
      | none => Except.error "selector index out of range"
      | some comp =>
        match runChain comp q with
        | Except.error e => Except.error e
        | Except.ok r => Except.ok (out.ind.toNat, r)

/-- The routing notebook run with fallible oracles, in cell order: load the
essay, build the vector and summary indices, then the two try-out
`qp.run` executions of the RouterComponent section.  The nested matches are
the embedding of unhandled Python exception propagation: no alternative
action is taken on any failure. -/
def routingDemoE {Doc VIdx SIdx Resp : Type} (env : RoutingEnvE Doc VIdx SIdx Resp) :
    Except String (Resp × Resp) :=
  match env.read_documents ["pg_essay.txt"] with
  | Except.error e => Except.error e
  | Except.ok documents =>
    match env.vector_from_documents documents with
    | Except.error e => Except.error e
    | Except.ok _vector_index =>
      match env.summary_from_documents documents with
      | Except.error e => Except.error e
      | Except.ok _summary_index =>
        match routerComponentRunE env.select env.run_chain
            "What did the author do during his time in YC?" with
        | Except.error e => Except.error e
        | Except.ok p1 =>
          match routerComponentRunE env.select env.run_chain
              "What is a summary of this document?" with
          | Except.error e => Except.error e
          | Except.ok p2 => Except.ok (p1.2, p2.2)

/-- One language-model call site authored in a notebook: where it is in the
source and what the model is being used for there. -/
structure LlmUse where
  site : String
  purpose : String
  deriving DecidableEq

/-- The complete inventory of repository-authored language-model uses across
the two notebooks, read off the call sites in source order:
the `TreeSummarize` synthesizer, the two `as_query_engine` engines, the bare
`llm` module placed between the rewrite prompt and the summary engine in
`summary_chain` (it executes `summary_qrewrite_str`, i.e. rewrites the
query), the `LLMSingleSelector` of the RouterComponent, the
`LLMSingleSelector` constructed inside `select_choice`, and the Slack
notebook's query engine. -/
def llmUses : List LlmUse :=
  [⟨"routing: summarizer = TreeSummarize(service_context=...)", "synthesis"⟩,
   ⟨"routing: vector_query_engine = vector_index.as_query_engine(similarity_top_k=2)", "synthesis"⟩,
   ⟨"routing: summary_query_engine = summary_index.as_query_engine()", "synthesis"⟩,
   ⟨"routing: llm module between summary_qrewrite_prompt and summary_query_engine in summary_chain", "query_rewrite"⟩,
   ⟨"routing: selector = LLMSingleSelector.from_defaults() in RouterComponent", "selection"⟩,
   ⟨"routing: LLMSingleSelector.from_defaults().select inside select_choice", "selection"⟩,
   ⟨"slack: index.as_query_engine().query", "synthesis"⟩]

/-- A concrete routing oracle for evaluation: the selector always picks
choice 0, running a chain returns the query unchanged, and `str()` is the
identity. -/
def routingEnv0 : RoutingEnv Nat String :=
  ⟨fun _ => [], fun _ _ => ⟨0, "the question is specific"⟩, fun _ q => q, fun r => r⟩

/-- A concrete Slack oracle for evaluation: every external call returns a
fixed trivial value. -/
def slackEnv0 : SlackEnv Nat Nat Nat Nat :=
  ⟨fun _ _ => [], fun _ => 0, fun _ => 0, fun _ _ => 0, fun _ => "ok"⟩

/-- A fallible Slack oracle whose calls all succeed, for concrete
evaluation. -/
def slackEnvOk : SlackEnvE Nat Nat Nat Nat :=
  ⟨fun _ _ => Except.ok [], fun _ => Except.ok 0, fun _ => Except.ok 0,
   fun _ _ => Except.ok 0⟩

/-- A fallible routing oracle whose calls all succeed, for concrete
evaluation. -/
def routingEnvOk : RoutingEnvE Nat Nat Nat Nat :=
  ⟨fun _ => Except.ok [], fun _ => Except.ok 0, fun _ => Except.ok 0,
   fun _ _ => Except.ok ⟨0, "specific"⟩, fun _ _ => Except.ok 0⟩

/-- A routing oracle whose directory reader fails. -/
def routingEnvReadFail : RoutingEnvE Nat Nat Nat Nat :=
  ⟨fun _ => Except.error "read failure", fun _ => Except.ok 0, fun _ => Except.ok 0,
   fun _ _ => Except.ok ⟨0, "specific"⟩, fun _ _ => Except.ok 0⟩

/-- A routing oracle whose vector-index construction fails. -/
def routingEnvVectorFail : RoutingEnvE Nat Nat Nat Nat :=
  ⟨fun _ => Except.ok [], fun _ => Except.error "vector index failure", fun _ => Except.ok 0,
   fun _ _ => Except.ok ⟨0, "specific"⟩, fun _ _ => Except.ok 0⟩

/-- A routing oracle whose summary-index construction fails. -/
def routingEnvSummaryFail : RoutingEnvE Nat Nat Nat Nat :=
  ⟨fun _ => Except.ok [], fun _ => Except.ok 0, fun _ => Except.error "summary index failure",
   fun _ _ => Except.ok ⟨0, "specific"⟩, fun _ _ => Except.ok 0⟩

/-- A routing oracle whose selector call fails. -/
def routingEnvSelectFail : RoutingEnvE Nat Nat Nat Nat :=
  ⟨fun _ => Except.ok [], fun _ => Except.ok 0, fun _ => Except.ok 0,
   fun _ _ => Except.error "router selection failure", fun _ _ => Except.ok 0⟩

/-- A routing oracle whose selector picks index 0 and whose chain execution
fails. -/
def routingEnvChainFail0 : RoutingEnvE Nat Nat Nat Nat :=
  ⟨fun _ => Except.ok [], fun _ => Except.ok 0, fun _ => Except.ok 0,
   fun _ _ => Except.ok ⟨0, "specific"⟩, fun _ _ => Except.error "chain failure"⟩

/-- A routing oracle whose selector picks index 1 and whose chain execution
fails. -/
def routingEnvChainFail1 : RoutingEnvE Nat Nat Nat Nat :=
  ⟨fun _ => Except.ok [], fun _ => Except.ok 0, fun _ => Except.ok 0,
   fun _ _ => Except.ok ⟨1, "summary"⟩, fun _ _ => Except.error "chain failure"⟩

/-- A routing oracle for which the first try-out query succeeds and the
second one's chain execution fails. -/
def routingEnvSecondRunFail : RoutingEnvE Nat Nat Nat Nat :=
  ⟨fun _ => Except.ok [], fun _ => Except.ok 0, fun _ => Except.ok 0,
   fun _ _ => Except.ok ⟨0, "specific"⟩,
   fun _ q => if q = "What is a summary of this document?" then
      Except.error "second run failure" else Except.ok 0⟩

/-- The conditional link into `vector_retriever` fires exactly on selector
outputs whose `"index"` entry is the string `"0"`. -/
theorem condition_fn_vector_true_iff (x : Dict) :
    condition_fn_vector x = some true ↔ dictGet x "index" = some "0" := by
  unfold condition_fn_vector
  cases h : dictGet x "index" with
  | none => simp
  | some v => simp

/-- The conditional link into `summary_retriever` fires exactly on selector
outputs whose `"index"` entry is the string `"1"`. -/
theorem condition_fn_summary_true_iff (x : Dict) :
    condition_fn_summary x = some true ↔ dictGet x "index" = some "1" := by
  unfold condition_fn_summary
  cases h : dictGet x "index" with
  | none => simp
  | some v => simp

/-- `vector_retriever` runs exactly when the selector output's index string
is `"0"`. -/
theorem vectorRetrieverRuns_iff (x : Dict) :
    vectorRetrieverRuns x = true ↔ dictGet x "index" = some "0" := by
  rw [← condition_fn_vector_true_iff]
  simp [vectorRetrieverRuns, linkFires, link_selector_vector]

/-- `summary_retriever` runs exactly when the selector output's index string
is `"1"`. -/
theorem summaryRetrieverRuns_iff (x : Dict) :
    summaryRetrieverRuns x = true ↔ dictGet x "index" = some "1" := by
  rw [← condition_fn_summary_true_iff]
  simp [summaryRetrieverRuns, linkFires, link_selector_summary]

/-- C9: for every query string `q` and every selection result produced by the
selector, `select_choice q` returns a dictionary with exactly the two keys
`"query"` and `"index"`, where the value under `"query"` is `q` unchanged and
the value under `"index"` is the decimal string rendering of the selector's
chosen index `output.ind`. -/
theorem select_choice_returns_query_and_index
    (select : List String → String → SingleSelection) (q : String) :
    dictKeys (select_choice select q) = ["query", "index"]
    ∧ (select_choice select q).length = 2
    ∧ dictGet (select_choice select q) "query" = some q
    ∧ dictGet (select_choice select q) "index" = some (pyStr (select choices q).ind)
    ∧ pyStr 0 = "0" ∧ pyStr 1 = "1" := by
  refine ⟨rfl, rfl, rfl, ?_, rfl, rfl⟩
  show (if ("query" : String) = "index" then some q else
      dictGet [("index", pyStr (select choices q).ind)] "index")
      = some (pyStr (select choices q).ind)
  rw [if_neg (by decide)]
  rfl

/-- C10: the two conditional links out of the selector are mutually
exclusive — for every dictionary the conditions `x["index"] == "0"` and
`x["index"] == "1"` are never both true, so at most one of the
`vector_retriever` and `summary_retriever` branches runs per query — and not
exhaustive: on any index string other than `"0"` and `"1"` neither branch
fires and the summarizer receives no `"nodes"` input. -/
theorem conditional_links_exclusive_not_exhaustive (x : Dict) (s : String)
    (hx : dictGet x "index" = some s) (h0 : s ≠ "0") (h1 : s ≠ "1") :
    (∀ y : Dict, ¬(condition_fn_vector y = some true ∧ condition_fn_summary y = some true))
    ∧ (∀ y : Dict, ¬(vectorRetrieverRuns y = true ∧ summaryRetrieverRuns y = true))
    ∧ condition_fn_vector x = some false
    ∧ condition_fn_summary x = some false
    ∧ vectorRetrieverRuns x = false
    ∧ summaryRetrieverRuns x = false
    ∧ summarizerNodesInputs x = 0 := by
  have hcv : condition_fn_vector x = some false := by
    unfold condition_fn_vector
    rw [hx]
    simp [h0]
  have hcs : condition_fn_summary x = some false := by
    unfold condition_fn_summary
    rw [hx]
    simp [h1]
  have hrv : vectorRetrieverRuns x = false := by
    simp [vectorRetrieverRuns, linkFires, link_selector_vector, hcv]
  have hrs : summaryRetrieverRuns x = false := by
    simp [summaryRetrieverRuns, linkFires, link_selector_summary, hcs]
  refine ⟨?_, ?_, hcv, hcs, hrv, hrs, ?_⟩
  · rintro y ⟨hv, hs⟩
    rw [condition_fn_vector_true_iff] at hv
    rw [condition_fn_summary_true_iff] at hs
    rw [hv] at hs
    exact absurd (Option.some.inj hs) (by decide)
  · rintro y ⟨hv, hs⟩
    rw [vectorRetrieverRuns_iff] at hv
    rw [summaryRetrieverRuns_iff] at hs
    rw [hv] at hs
    exact absurd (Option.some.inj hs) (by decide)
  · simp [summarizerNodesInputs, hrv, hrs]

/-- C10 witness: on the selector output with index string `"2"` neither
condition holds, neither retriever runs, and the summarizer receives no
`"nodes"` input. -/
theorem conditional_links_exclusive_not_exhaustive_witness :
    condition_fn_vector [("query", "q"), ("index", "2")] = some false
    ∧ condition_fn_summary [("query", "q"), ("index", "2")] = some false
    ∧ vectorRetrieverRuns [("query", "q"), ("index", "2")] = false
    ∧ summaryRetrieverRuns [("query", "q"), ("index", "2")] = false
    ∧ summarizerNodesInputs [("query", "q"), ("index", "2")] = 0 := by
  have h := conditional_links_exclusive_not_exhaustive
    [("query", "q"), ("index", "2")] "2" (by decide) (by decide) (by decide)
  exact ⟨h.2.2.1, h.2.2.2.1, h.2.2.2.2.1, h.2.2.2.2.2.1, h.2.2.2.2.2.2⟩

/-- C2: the Slack notebook performs, in order: set credentials in the
environment, call the chat-workspace reader with the bot token for the list
of channel identifiers, build a summary index from exactly those documents,
create a query engine from that index, and query it; the query engine's
input index is the one built from the reader's output, with no intermediate
transformation of the documents. -/
theorem slack_notebook_order_and_dataflow {Doc Idx Eng Resp : Type}
    (env : SlackEnv Doc Idx Eng Resp) :
    (slackDemo env).trace = slackOps
    ∧ slackOps = ["configure credentials", "SlackReader.load_data",
        "SummaryIndex.from_documents", "index.as_query_engine",
        "query_engine.query", "display response"]
    ∧ (slackDemo env).environ = [("SLACK_BOT_TOKEN", "xoxb-")]
    ∧ (slackDemo env).api_key = "sk-"
    ∧ (slackDemo env).slack_token = some "xoxb-"
    ∧ (slackDemo env).channel_ids = ["<channel_id>"]
    ∧ (slackDemo env).documents = env.load_data (some "xoxb-") ["<channel_id>"]
    ∧ (slackDemo env).index = env.from_documents (slackDemo env).documents
    ∧ (slackDemo env).query_engine = env.as_query_engine (slackDemo env).index
    ∧ (slackDemo env).response = env.query (slackDemo env).query_engine "<query_text>" :=
  ⟨rfl, rfl, rfl, rfl, rfl, rfl, rfl, rfl, rfl, rfl⟩

/-- C6: the chat-workspace reader is consumed with exactly the two inputs
the notebook supplies — the bot token read back from the environment
variable it just set, and the list of channel identifiers — and its entire
output is bound to `documents`; the embedding's reader oracle takes no
further parameter. -/
theorem slack_reader_two_inputs {Doc Idx Eng Resp : Type}
    (env : SlackEnv Doc Idx Eng Resp) :
    (slackDemo env).documents
        = env.load_data (slackDemo env).slack_token (slackDemo env).channel_ids
    ∧ (slackDemo env).slack_token = envGet (slackDemo env).environ "SLACK_BOT_TOKEN"
    ∧ (slackDemo env).slack_token = some "xoxb-"
    ∧ (slackDemo env).channel_ids = ["<channel_id>"] :=
  ⟨rfl, rfl, rfl, rfl⟩

/-- C8: both notebooks are sequential: each has a fixed cell schedule that
is independent of every external outcome, each operation appears exactly
once in it, and execution is the left-to-right traversal of that schedule,
so any two distinct repository-authored operations are strictly ordered. -/
theorem notebooks_sequential {Doc Idx Eng Resp Doc2 Resp2 : Type}
    (env env2 : SlackEnv Doc Idx Eng Resp) (renv renv2 : RoutingEnv Doc2 Resp2) :
    (slackDemo env).trace = slackOps
    ∧ (slackDemo env2).trace = (slackDemo env).trace
    ∧ slackOps.Nodup
    ∧ (routingDemo renv).trace = routingOps
    ∧ (routingDemo renv2).trace = (routingDemo renv).trace
    ∧ routingOps.Nodup :=
  ⟨rfl, rfl, by decide, rfl, rfl, by decide⟩

/-- C4: no error is caught, translated, or handled by repository-authored
code, in either notebook: whichever external call fails first — in the
Slack notebook the reader, index construction, engine construction or
query; in the routing notebook the directory reader, either index
construction, or, within a `qp.run` execution, the selector call or the
chosen chain's execution (also inside `select_choice`) — the failure is the
result of the whole run, exactly as raised. -/
theorem no_repo_error_handling {Doc Idx Eng Resp Doc2 VIdx SIdx Resp2 : Type}
    (env : SlackEnvE Doc Idx Eng Resp) (renv : RoutingEnvE Doc2 VIdx SIdx Resp2)
    (selE : List String → String → Except String SingleSelection)
    (docs : List Doc) (idx : Idx) (eng : Eng)
    (docs2 : List Doc2) (vidx : VIdx) (sidx : SIdx)
    (out : SingleSelection) (p1 : Nat × Resp2) (e : String) (q : String) :
    (env.load_data (some "xoxb-") ["<channel_id>"] = Except.error e →
        slackDemoE env = Except.error e)
    ∧ (env.load_data (some "xoxb-") ["<channel_id>"] = Except.ok docs →
        env.from_documents docs = Except.error e →
        slackDemoE env = Except.error e)
    ∧ (env.load_data (some "xoxb-") ["<channel_id>"] = Except.ok docs →
        env.from_documents docs = Except.ok idx →
        env.as_query_engine idx = Except.error e →
        slackDemoE env = Except.error e)
    ∧ (env.load_data (some "xoxb-") ["<channel_id>"] = Except.ok docs →
        env.from_documents docs = Except.ok idx →
        env.as_query_engine idx = Except.ok eng →
        env.query eng "<query_text>" = Except.error e →
        slackDemoE env = Except.error e)
    ∧ (selE choices q = Except.error e →
        select_choiceE selE q = Except.error e)
    ∧ (renv.read_documents ["pg_essay.txt"] = Except.error e →
        routingDemoE renv = Except.error e)
    ∧ (renv.read_documents ["pg_essay.txt"] = Except.ok docs2 →
        renv.vector_from_documents docs2 = Except.error e →
        routingDemoE renv = Except.error e)
    ∧ (renv.read_documents ["pg_essay.txt"] = Except.ok docs2 →
        renv.vector_from_documents docs2 = Except.ok vidx →
        renv.summary_from_documents docs2 = Except.error e →
        routingDemoE renv = Except.error e)
    ∧ (renv.select router_c.choices q = Except.error e →
        routerComponentRunE renv.select renv.run_chain q = Except.error e)
    ∧ (renv.select router_c.choices q = Except.ok out → out.ind = 0 →
        renv.run_chain vector_chain q = Except.error e →
        routerComponentRunE renv.select renv.run_chain q = Except.error e)
    ∧ (renv.select router_c.choices q = Except.ok out → out.ind = 1 →
        renv.run_chain summary_chain q = Except.error e →
        routerComponentRunE renv.select renv.run_chain q = Except.error e)
    ∧ (renv.read_documents ["pg_essay.txt"] = Except.ok docs2 →
        renv.vector_from_documents docs2 = Except.ok vidx →
        renv.summary_from_documents docs2 = Except.ok sidx →
        routerComponentRunE renv.select renv.run_chain
          "What did the author do during his time in YC?" = Except.error e →
        routingDemoE renv = Except.error e)
    ∧ (renv.read_documents ["pg_essay.txt"] = Except.ok docs2 →
        renv.vector_from_documents docs2 = Except.ok vidx →
        renv.summary_from_documents docs2 = Except.ok sidx →
        routerComponentRunE renv.select renv.run_chain
          "What did the author do during his time in YC?" = Except.ok p1 →
        routerComponentRunE renv.select renv.run_chain
          "What is a summary of this document?" = Except.error e →
        routingDemoE renv = Except.error e) := by
  have htok : envGet (envSet [] "SLACK_BOT_TOKEN" "xoxb-") "SLACK_BOT_TOKEN"
      = some "xoxb-" := rfl
  refine ⟨?_, ?_, ?_, ?_, ?_, ?_, ?_, ?_, ?_, ?_, ?_, ?_, ?_⟩
  · intro h1
    unfold slackDemoE
    rw [htok, h1]
  · intro h1 h2
    unfold slackDemoE
    rw [htok, h1]
    show (match env.from_documents docs with
      | Except.error e => Except.error e
      | Except.ok index =>
        match env.as_query_engine index with
        | Except.error e => Except.error e
        | Except.ok query_engine => env.query query_engine "<query_text>")
      = Except.error e
    rw [h2]
  · intro h1 h2 h3
    unfold slackDemoE
    rw [htok, h1]
    show (match env.from_documents docs with
      | Except.error e => Except.error e
      | Except.ok index =>
        match env.as_query_engine index with
        | Except.error e => Except.error e
        | Except.ok query_engine => env.query query_engine "<query_text>")
      = Except.error e
    rw [h2]
    show (match env.as_query_engine idx with
      | Except.error e => Except.error e
      | Except.ok query_engine => env.query query_engine "<query_text>")
      = Except.error e
    rw [h3]
  · intro h1 h2 h3 h4
    unfold slackDemoE
    rw [htok, h1]
    show (match env.from_documents docs with
      | Except.error e => Except.error e
      | Except.ok index =>
        match env.as_query_engine index with
        | Except.error e => Except.error e
        | Except.ok query_engine => env.query query_engine "<query_text>")
      = Except.error e
    rw [h2]
    show (match env.as_query_engine idx with
      | Except.error e => Except.error e
      | Except.ok query_engine => env.query query_engine "<query_text>")
      = Except.error e
    rw [h3]
    show env.query eng "<query_text>" = Except.error e
    rw [h4]
  · intro h1
    unfold select_choiceE
    rw [h1]
  · intro h1
    unfold routingDemoE
    rw [h1]
  · intro h1 h2
    unfold routingDemoE
    rw [h1]
    show (match renv.vector_from_documents docs2 with
      | Except.error e => Except.error e
      | Except.ok _vector_index =>
        match renv.summary_from_documents docs2 with
        | Except.error e => Except.error e
        | Except.ok _summary_index =>
          match routerComponentRunE renv.select renv.run_chain
              "What did the author do during his time in YC?" with
          | Except.error e => Except.error e
          | Except.ok p1 =>
            match routerComponentRunE renv.select renv.run_chain
                "What is a summary of this document?" with
            | Except.error e => Except.error e
            | Except.ok p2 => Except.ok (p1.2, p2.2)) = Except.error e
    rw [h2]
  · intro h1 h2 h3
    unfold routingDemoE
    rw [h1]
    show (match renv.vector_from_documents docs2 with
      | Except.error e => Except.error e
      | Except.ok _vector_index =>
        match renv.summary_from_documents docs2 with
        | Except.error e => Except.error e
        | Except.ok _summary_index =>
          match routerComponentRunE renv.select renv.run_chain
              "What did the author do during his time in YC?" with
          | Except.error e => Except.error e
          | Except.ok p1 =>
            match routerComponentRunE renv.select renv.run_chain
                "What is a summary of this document?" with
            | Except.error e => Except.error e
            | Except.ok p2 => Except.ok (p1.2, p2.2)) = Except.error e
    rw [h2]
    show (match renv.summary_from_documents docs2 with
      | Except.error e => Except.error e
      | Except.ok _summary_index =>
        match routerComponentRunE renv.select renv.run_chain
            "What did the author do during his time in YC?" with
        | Except.error e => Except.error e
        | Except.ok p1 =>
          match routerComponentRunE renv.select renv.run_chain
              "What is a summary of this document?" with
          | Except.error e => Except.error e
          | Except.ok p2 => Except.ok (p1.2, p2.2)) = Except.error e
    rw [h3]
  · intro h1
    unfold routerComponentRunE
    rw [h1]
  · intro h1 h2 h3
    unfold routerComponentRunE
    rw [h1]
    show (if out.ind < 0 then Except.error "selector index out of range"
      else
        match router_c.components.get? out.ind.toNat with
        | none => Except.error "selector index out of range"
        | some comp =>
          match renv.run_chain comp q with
          | Except.error e => Except.error e
          | Except.ok r => Except.ok (out.ind.toNat, r)) = Except.error e
    rw [h2, if_neg (by decide)]
    show (match renv.run_chain vector_chain q with
      | Except.error e => Except.error e
      | Except.ok r => Except.ok (Int.toNat 0, r)) = Except.error e
    rw [h3]
  · intro h1 h2 h3
    unfold routerComponentRunE
    rw [h1]
    show (if out.ind < 0 then Except.error "selector index out of range"
      else
        match router_c.components.get? out.ind.toNat with
        | none => Except.error "selector index out of range"
        | some comp =>
          match renv.run_chain comp q with
          | Except.error e => Except.error e
          | Except.ok r => Except.ok (out.ind.toNat, r)) = Except.error e
    rw [h2, if_neg (by decide)]
    show (match renv.run_chain summary_chain q with
      | Except.error e => Except.error e
      | Except.ok r => Except.ok (Int.toNat 1, r)) = Except.error e
    rw [h3]
  · intro h1 h2 h3 h4
    unfold routingDemoE
    rw [h1]
    show (match renv.vector_from_documents docs2 with
      | Except.error e => Except.error e
      | Except.ok _vector_index =>
        match renv.summary_from_documents docs2 with
        | Except.error e => Except.error e
        | Except.ok _summary_index =>
          match routerComponentRunE renv.select renv.run_chain
              "What did the author do during his time in YC?" with
          | Except.error e => Except.error e
          | Except.ok p1 =>
            match routerComponentRunE renv.select renv.run_chain
                "What is a summary of this document?" with
            | Except.error e => Except.error e
            | Except.ok p2 => Except.ok (p1.2, p2.2)) = Except.error e
    rw [h2]
    show (match renv.summary_from_documents docs2 with
      | Except.error e => Except.error e
      | Except.ok _summary_index =>
        match routerComponentRunE renv.select renv.run_chain
            "What did the author do during his time in YC?" with
        | Except.error e => Except.error e
        | Except.ok p1 =>
          match routerComponentRunE renv.select renv.run_chain
              "What is a summary of this document?" with
          | Except.error e => Except.error e
          | Except.ok p2 => Except.ok (p1.2, p2.2)) = Except.error e
    rw [h3]
    show (match routerComponentRunE renv.select renv.run_chain
          "What did the author do during his time in YC?" with
      | Except.error e => Except.error e
      | Except.ok p1 =>
        match routerComponentRunE renv.select renv.run_chain
            "What is a summary of this document?" with
        | Except.error e => Except.error e
        | Except.ok p2 => Except.ok (p1.2, p2.2)) = Except.error e
    rw [h4]
  · intro h1 h2 h3 h4 h5
    unfold routingDemoE
    rw [h1]
    show (match renv.vector_from_documents docs2 with
      | Except.error e => Except.error e
      | Except.ok _vector_index =>
        match renv.summary_from_documents docs2 with
        | Except.error e => Except.error e
        | Except.ok _summary_index =>
          match routerComponentRunE renv.select renv.run_chain
              "What did the author do during his time in YC?" with
          | Except.error e => Except.error e
          | Except.ok p1 =>
            match routerComponentRunE renv.select renv.run_chain
                "What is a summary of this document?" with
            | Except.error e => Except.error e
            | Except.ok p2 => Except.ok (p1.2, p2.2)) = Except.error e
    rw [h2]
    show (match renv.summary_from_documents docs2 with
      | Except.error e => Except.error e
      | Except.ok _summary_index =>
        match routerComponentRunE renv.select renv.run_chain
            "What did the author do during his time in YC?" with
        | Except.error e => Except.error e
        | Except.ok p1 =>
          match routerComponentRunE renv.select renv.run_chain
              "What is a summary of this document?" with
          | Except.error e => Except.error e
          | Except.ok p2 => Except.ok (p1.2, p2.2)) = Except.error e
    rw [h3]
    show (match routerComponentRunE renv.select renv.run_chain
          "What did the author do during his time in YC?" with
      | Except.error e => Except.error e
      | Except.ok p1 =>
        match routerComponentRunE renv.select renv.run_chain
            "What is a summary of this document?" with
        | Except.error e => Except.error e
        | Except.ok p2 => Except.ok (p1.2, p2.2)) = Except.error e
    rw [h4]
    show (match routerComponentRunE renv.select renv.run_chain
          "What is a summary of this document?" with
      | Except.error e => Except.error e
      | Except.ok p2 => Except.ok (p1.2, p2.2)) = Except.error e
    rw [h5]

/-- C4 witness: concrete failing oracles at each stage of both notebooks
propagate their error unchanged to the run's result. -/
theorem no_repo_error_handling_witness :
    slackDemoE (⟨fun _ _ => Except.error "load failure", fun _ => Except.ok 0,
        fun _ => Except.ok 0, fun _ _ => Except.ok 0⟩ : SlackEnvE Nat Nat Nat Nat)
      = Except.error "load failure"
    ∧ slackDemoE (⟨fun _ _ => Except.ok [], fun _ => Except.error "index failure",
        fun _ => Except.ok 0, fun _ _ => Except.ok 0⟩ : SlackEnvE Nat Nat Nat Nat)
      = Except.error "index failure"
    ∧ slackDemoE (⟨fun _ _ => Except.ok [], fun _ => Except.ok 0,
        fun _ => Except.error "engine failure", fun _ _ => Except.ok 0⟩ : SlackEnvE Nat Nat Nat Nat)
      = Except.error "engine failure"
    ∧ slackDemoE (⟨fun _ _ => Except.ok [], fun _ => Except.ok 0,
        fun _ => Except.ok 0, fun _ _ => Except.error "query failure"⟩ : SlackEnvE Nat Nat Nat Nat)
      = Except.error "query failure"
    ∧ select_choiceE (fun _ _ => Except.error "selection failure") "q"
      = Except.error "selection failure"
    ∧ routingDemoE routingEnvReadFail = Except.error "read failure"
    ∧ routingDemoE routingEnvVectorFail = Except.error "vector index failure"
    ∧ routingDemoE routingEnvSummaryFail = Except.error "summary index failure"
    ∧ routerComponentRunE routingEnvSelectFail.select routingEnvSelectFail.run_chain "q"
      = Except.error "router selection failure"
    ∧ routerComponentRunE routingEnvChainFail0.select routingEnvChainFail0.run_chain "q"
      = Except.error "chain failure"
    ∧ routerComponentRunE routingEnvChainFail1.select routingEnvChainFail1.run_chain "q"
      = Except.error "chain failure"
    ∧ routingDemoE routingEnvSelectFail = Except.error "router selection failure"
    ∧ routingDemoE routingEnvSecondRunFail = Except.error "second run failure" := by
  refine ⟨?_, ?_, ?_, ?_, ?_, ?_, ?_, ?_, ?_, ?_, ?_, ?_, ?_⟩
  · exact (no_repo_error_handling _ routingEnvOk (fun _ _ => Except.error "u")
      [] 0 0 [] 0 0 ⟨0, "u"⟩ (0, 0) "load failure" "q").1 rfl
  · exact (no_repo_error_handling _ routingEnvOk (fun _ _ => Except.error "u")
      [] 0 0 [] 0 0 ⟨0, "u"⟩ (0, 0) "index failure" "q").2.1 rfl rfl
  · exact (no_repo_error_handling _ routingEnvOk (fun _ _ => Except.error "u")
      [] 0 0 [] 0 0 ⟨0, "u"⟩ (0, 0) "engine failure" "q").2.2.1 rfl rfl rfl
  · exact (no_repo_error_handling _ routingEnvOk (fun _ _ => Except.error "u")
      [] 0 0 [] 0 0 ⟨0, "u"⟩ (0, 0) "query failure" "q").2.2.2.1 rfl rfl rfl rfl
  · exact (no_repo_error_handling slackEnvOk routingEnvOk
      (fun _ _ => Except.error "selection failure")
      [] 0 0 [] 0 0 ⟨0, "u"⟩ (0, 0) "selection failure" "q").2.2.2.2.1 rfl
  · exact (no_repo_error_handling slackEnvOk routingEnvReadFail
      (fun _ _ => Except.error "u")
      [] 0 0 [] 0 0 ⟨0, "u"⟩ (0, 0) "read failure" "q").2.2.2.2.2.1 rfl
  · exact (no_repo_error_handling slackEnvOk routingEnvVectorFail
      (fun _ _ => Except.error "u")
      [] 0 0 [] 0 0 ⟨0, "u"⟩ (0, 0) "vector index failure" "q").2.2.2.2.2.2.1 rfl rfl
  · exact (no_repo_error_handling slackEnvOk routingEnvSummaryFail
      (fun _ _ => Except.error "u")
      [] 0 0 [] 0 0 ⟨0, "u"⟩ (0, 0) "summary index failure" "q").2.2.2.2.2.2.2.1 rfl rfl rfl
  · exact (no_repo_error_handling slackEnvOk routingEnvSelectFail
      (fun _ _ => Except.error "u")
      [] 0 0 [] 0 0 ⟨0, "u"⟩ (0, 0) "router selection failure"
      "q").2.2.2.2.2.2.2.2.1 rfl
  · exact (no_repo_error_handling slackEnvOk routingEnvChainFail0
      (fun _ _ => Except.error "u")
      [] 0 0 [] 0 0 ⟨0, "specific"⟩ (0, 0) "chain failure"
      "q").2.2.2.2.2.2.2.2.2.1 rfl rfl rfl
  · exact (no_repo_error_handling slackEnvOk routingEnvChainFail1
      (fun _ _ => Except.error "u")
      [] 0 0 [] 0 0 ⟨1, "summary"⟩ (0, 0) "chain failure"
      "q").2.2.2.2.2.2.2.2.2.2.1 rfl rfl rfl
  · exact (no_repo_error_handling slackEnvOk routingEnvSelectFail
      (fun _ _ => Except.error "u")
      [] 0 0 [] 0 0 ⟨0, "u"⟩ (0, 0) "router selection failure"
      "q").2.2.2.2.2.2.2.2.2.2.2.1 rfl rfl rfl rfl
  · exact (no_repo_error_handling slackEnvOk routingEnvSecondRunFail
      (fun _ _ => Except.error "u")
      [] 0 0 [] 0 0 ⟨0, "u"⟩ (0, 0) "second run failure"
      "q").2.2.2.2.2.2.2.2.2.2.2.2 rfl rfl rfl rfl rfl

/-- C1: the routing notebook builds exactly two retrieval pipelines — a
vector-similarity chain whose engine is configured with
`similarity_top_k=2`, and a summarization chain containing the
query-rewrite prompt step — wires them behind a selector in the
`RouterComponent`, and for every query whose selector output indexes one of
the two choices it executes exactly the branch at that index and prints the
response. -/
theorem router_pipeline_two_branches_exactly_one_runs {Doc Resp : Type}
    (env : RoutingEnv Doc Resp) (q : String)
    (h : (env.select choices q).ind = 0 ∨ (env.select choices q).ind = 1) :
    router_c.components.length = 2
    ∧ router_c.components = [vector_chain, summary_chain]
    ∧ router_c.choices.length = 2
    ∧ chainTopK vector_chain = some 2
    ∧ chainHasPromptStep summary_chain = true
    ∧ ∃ res : RouterRunResult Resp,
        routerTryQuery env q = some res
        ∧ res.executedBranches = [(env.select choices q).ind.toNat]
        ∧ res.executedBranches.length = 1
        ∧ res.response = env.run_chain
            (if (env.select choices q).ind = 0 then vector_chain else summary_chain) q
        ∧ res.printed = env.resp_str res.response := by
  have hchoices : router_c.choices = choices := rfl
  rcases h with h0 | h0
  · refine ⟨rfl, rfl, rfl, rfl, rfl,
      ⟨[0], env.run_chain vector_chain q, env.resp_str (env.run_chain vector_chain q)⟩,
      ?_, by rw [h0]; rfl, rfl, by rw [h0]; rfl, rfl⟩
    unfold routerTryQuery routerComponentRun
    rw [hchoices, h0]
    rfl
  · refine ⟨rfl, rfl, rfl, rfl, rfl,
      ⟨[1], env.run_chain summary_chain q, env.resp_str (env.run_chain summary_chain q)⟩,
      ?_, by rw [h0]; rfl, rfl, by rw [h0]; rfl, rfl⟩
    unfold routerTryQuery routerComponentRun
    rw [hchoices, h0]
    rfl

/-- C1 witness: with an oracle whose selector always picks index 0 and whose
chain runner echoes the query, the first try-out query routes to the vector
branch alone and the response is printed. -/
theorem router_pipeline_two_branches_exactly_one_runs_witness :
    routerTryQuery routingEnv0 "What did the author do during his time in YC?"
      = some ⟨[0], "What did the author do during his time in YC?",
          "What did the author do during his time in YC?"⟩ := by
  obtain ⟨-, -, -, -, -, res, hEq, hBr, -, hResp, hPr⟩ :=
    router_pipeline_two_branches_exactly_one_runs routingEnv0
      "What did the author do during his time in YC?" (Or.inl rfl)
  rcases res with ⟨bs, r, p⟩
  dsimp only at hBr hResp hPr
  subst hPr
  subst hResp
  subst hBr
  exact hEq.trans rfl

/-- C3 counterexample: the routing notebook does author a repository-defined
function whose result depends on a case analysis — the conditional-link
predicate `lambda x: x["index"] == "0"` returns different Booleans on two
concrete inputs that differ only in the `"index"` value (and its companion
`lambda x: x["index"] == "1"` likewise), so the claim that every
repository-authored code path is free of branching logic fails. -/
theorem condition_fn_is_case_analysis :
    condition_fn_vector [("query", "q"), ("index", "0")] = some true
    ∧ condition_fn_vector [("query", "q"), ("index", "1")] = some false
    ∧ condition_fn_summary [("query", "q"), ("index", "1")] = some true
    ∧ condition_fn_summary [("query", "q"), ("index", "0")] = some false := by
  decide

/-- C3 amended: the notebooks are straight-line pass-through scripts except
for the conditional-link functions of the routing notebook: the two
condition lambdas are repository-defined branching logic whose result is a
case analysis on exactly the `"index"` entry of the selector output (and the
input lambda reads exactly the `"query"` entry); `select_choice` itself
builds the same two-key dictionary shape for every input, and the Slack
notebook's schedule is fixed regardless of external outcomes. -/
theorem branching_confined_to_condition_fns {Doc Idx Eng Resp : Type}
    (env env2 : SlackEnv Doc Idx Eng Resp) :
    (∀ x y : Dict, dictGet x "index" = dictGet y "index" →
        condition_fn_vector x = condition_fn_vector y
        ∧ condition_fn_summary x = condition_fn_summary y)
    ∧ (∀ x y : Dict, dictGet x "query" = dictGet y "query" →
        input_fn_query x = input_fn_query y)
    ∧ condition_fn_vector [("index", "0")] ≠ condition_fn_vector [("index", "1")]
    ∧ (∀ select q, dictKeys (select_choice select q) = ["query", "index"])
    ∧ (slackDemo env).trace = (slackDemo env2).trace := by
  refine ⟨?_, ?_, by decide, fun _ _ => rfl, rfl⟩
  · intro x y hxy
    constructor
    · unfold condition_fn_vector
      rw [hxy]
    · unfold condition_fn_summary
      rw [hxy]
  · intro x y hxy
    unfold input_fn_query
    rw [hxy]

/-- C3 amended witness: the condition and input functions are insensitive to
everything but their one dictionary entry, at concrete inputs. -/
theorem branching_confined_to_condition_fns_witness :
    condition_fn_vector [("query", "a"), ("index", "0")]
      = condition_fn_vector [("index", "0")]
    ∧ input_fn_query [("query", "a")]
      = input_fn_query [("query", "a"), ("index", "9")] := by
  have h := branching_confined_to_condition_fns slackEnv0 slackEnv0
  exact ⟨(h.1 [("query", "a"), ("index", "0")] [("index", "0")] (by decide)).1,
    h.2.1 [("query", "a")] [("query", "a"), ("index", "9")] (by decide)⟩

/-- C5 counterexample: the language model is not used for only answer
synthesis and branch selection — the `llm` module that `summary_chain`
places between `summary_qrewrite_prompt` and `summary_query_engine` executes
the rewrite prompt, a third repository-authored use, so the inventory of
call sites refutes the claim as stated. -/
theorem llm_has_third_use :
    llmUses.all (fun u => u.purpose == "synthesis" || u.purpose == "selection") = false
    ∧ (llmUses.get ⟨3, by decide⟩).purpose = "query_rewrite"
    ∧ chainHasPromptStep summary_chain = true := by
  decide

/-- C5 amended: the language-model API is used for exactly three purposes
across the two notebooks — synthesizing answers (the summarizer and the
query engines), selecting among the candidate retrieval branches (the two
`LLMSingleSelector` sites), and rewriting the query inside the
summarization chain — and every call site has one of these purposes. -/
theorem llm_uses_synthesis_selection_rewrite :
    llmUses.all (fun u => u.purpose == "synthesis" || u.purpose == "selection"
        || u.purpose == "query_rewrite") = true
    ∧ llmUses.any (fun u => u.purpose == "synthesis") = true
    ∧ llmUses.any (fun u => u.purpose == "selection") = true
    ∧ llmUses.any (fun u => u.purpose == "query_rewrite") = true
    ∧ llmUses.length = 7 := by
  decide

/-- C7 counterexample: the two-key dictionary shape defined by
`select_choice` is relied on by repository functions attached to two
different destination components — with a selector choosing index 0, the
vector link's condition reads it as true, the summary link's condition reads
it as false, the shared input function extracts the query from it, and all
three return nothing on a dict lacking those keys — refuting the claim that
no repository-defined shape is relied on by more than one component. -/
theorem dict_shape_consumed_by_both_links :
    dictKeys (select_choice (fun _ _ => ⟨0, "specific"⟩) "q") = ["query", "index"]
    ∧ condition_fn_vector (select_choice (fun _ _ => ⟨0, "specific"⟩) "q") = some true
    ∧ condition_fn_summary (select_choice (fun _ _ => ⟨0, "specific"⟩) "q") = some false
    ∧ input_fn_query (select_choice (fun _ _ => ⟨0, "specific"⟩) "q") = some "q"
    ∧ condition_fn_vector [] = none
    ∧ condition_fn_summary [] = none
    ∧ input_fn_query [] = none
    ∧ link_selector_vector.dest ≠ link_selector_summary.dest := by
  refine ⟨rfl, ?_, ?_, ?_, rfl, rfl, rfl, by decide⟩
  · decide
  · decide
  · decide

/-- C7 amended: the repository defines no persistent data structure or file
format, and every constructed value is an external-framework instance or a
transient built-in — but it does define one transient inter-component value
shape, the dictionary with keys `"query"` and `"index"` returned by
`select_choice`, on which the condition functions and the input function of
both conditional links (with distinct destination components) rely. -/
theorem repo_defined_shape_inventory
    (select : List String → String → SingleSelection) (q : String) :
    dictKeys (select_choice select q) = ["query", "index"]
    ∧ (∀ x : Dict, dictGet x "index" = none →
        condition_fn_vector x = none ∧ condition_fn_summary x = none)
    ∧ (∀ x : Dict, dictGet x "query" = none → input_fn_query x = none)
    ∧ link_selector_vector.dest = "vector_retriever"
    ∧ link_selector_summary.dest = "summary_retriever"
    ∧ qp_links.length = 6
    ∧ qp_modules.length = 5 := by
  refine ⟨rfl, ?_, ?_, rfl, rfl, rfl, rfl⟩
  · intro x hx
    constructor
    · unfold condition_fn_vector
      rw [hx]
      rfl
    · unfold condition_fn_summary
      rw [hx]
      rfl
  · intro x hx
    exact hx

/-- C7 amended witness: dictionaries lacking the shape's keys yield nothing
from the consuming functions, at concrete inputs. -/
theorem repo_defined_shape_inventory_witness :
    condition_fn_vector [("query", "q")] = none
    ∧ input_fn_query [("index", "0")] = none := by
  have h := repo_defined_shape_inventory (fun _ _ => ⟨1, "summary"⟩) "q"
  exact ⟨(h.2.1 [("query", "q")] (by decide)).1, h.2.2.1 [("index", "0")] (by decide)⟩

end LlamaIndexNotebooks
